import Mathlib

/-!
Shallow embedding of the minecraft-watcher repository (PfisterFactor/minecraft-watcher).

The repository contains two parallel variants of the same program:
- `src/main.rs` together with `src/server_watcher.rs` (watcher task, login and
  status handlers without an allow-list, resolver using `.get(0)` accessors), and
- `src/status_reporter.rs` together with `src/server_util.rs` (login handler with
  a username allow-list, resolver using `.first()` accessors).

External collaborators (the AWS EC2 control plane, TCP sockets, the Minecraft
wire codec) are modelled as oracles: an environment records, for each outbound
call the code makes, the response that call would produce.  Rust `Result` is
`Except String`, `Option` is `Option`, `.unwrap()` on a missing value is the
explicit `panicked` outcome, and `u32` player counts are `Nat`.
-/

namespace MinecraftWatcher

/-! Section: types.rs -/

/-- Embedding of `ServerStatus` enum from `src/types.rs`. -/
inductive ServerStatus where
  | Offline
  | StartingEC2
  | StartingUp
  | Online
  | ShuttingDown
  | Unknown
  deriving DecidableEq, Repr

/-- Embedding of `ServerStatus::as_str` from `src/types.rs`. -/
def ServerStatus.as_str : ServerStatus → String
  | ServerStatus.Offline => "Offline"
  | ServerStatus.StartingEC2 => "StartingEC2"
  | ServerStatus.StartingUp => "StartingUp"
  | ServerStatus.Online => "Online"
  | ServerStatus.ShuttingDown => "ShuttingDown"
  | ServerStatus.Unknown => "Unknown"

/-- Embedding of `ServerStatus::get_motd` from `src/types.rs`. -/
def ServerStatus.get_motd : ServerStatus → String
  | ServerStatus.Offline => "&4Offline &f&o(join to start server up)"
  | ServerStatus.StartingEC2 => "&6Starting EC2 instance..."
  | ServerStatus.StartingUp => "&6Starting minecraft server..."
  | ServerStatus.Online => "&2Online"
  | ServerStatus.ShuttingDown => "&cShutting down..."
  | ServerStatus.Unknown => "Unknown"

/-! Section: AWS SDK data model (shapes of the control-plane responses the code reads) -/

/-- Embedding of `aws_sdk_ec2::types::InstanceStateName`: the known lifecycle states plus a
catch-all for the non-exhaustive remainder of the enum. -/
inductive InstanceStateName where
  | Pending
  | Running
  | ShuttingDown
  | Stopped
  | Stopping
  | Terminated
  | Other (value : String)
  deriving DecidableEq, Repr

/-- Embedding of `aws_sdk_ec2::types::InstanceState`: `name()` returns an `Option`. -/
structure InstanceState where
  name : Option InstanceStateName
  deriving DecidableEq, Repr

/-- Embedding of `aws_sdk_ec2::types::Instance`, restricted to the fields the code reads. -/
structure Instance where
  state : Option InstanceState
  public_ip_address : Option String
  deriving DecidableEq, Repr

/-- One reservation of a `DescribeInstances` response; `instances()` yields a slice. -/
structure Reservation where
  instances : List Instance
  deriving DecidableEq, Repr

/-- A `DescribeInstances` response; `reservations()` yields a slice. -/
structure DescribeInstancesResponse where
  reservations : List Reservation
  deriving DecidableEq, Repr

/-- Embedding of `aws_sdk_ec2::types::SpotInstanceRequestStatus`: `code()` returns an `Option`. -/
structure SpotInstanceRequestStatus where
  code : Option String
  deriving DecidableEq, Repr

/-- Embedding of `aws_sdk_ec2::types::SpotInstanceRequest`: `status()` returns an `Option`. -/
structure SpotInstanceRequest where
  status : Option SpotInstanceRequestStatus
  deriving DecidableEq, Repr

/-- A `DescribeSpotInstanceRequests` response; the `spot_instance_requests`
field is an `Option<Vec<_>>` which the code reads directly. -/
structure DescribeSpotInstanceRequestsResponse where
  spot_instance_requests : Option (List SpotInstanceRequest)
  deriving DecidableEq, Repr

/-! Section: Network oracles for the live protocol ping (`ping_server`, `get_player_count`) -/

/-- What the remote side answers to the `StatusPing` read in `ping_server`. -/
inductive PingReply where
  | pong
  | otherPacket
  deriving DecidableEq, Repr

/-- Outcome of one run of `ping_server` as seen from its fallible operations:
the raw `TcpStream::connect` probe, the `connect_server_tokio` connection,
a failing packet write/read (propagated with the question-mark operator), or a
completed read returning `Some` packet or `None`. -/
inductive PingOutcome where
  | tcpConnectFailed
  | craftConnectFailed
  | ioError (e : String)
  | received (p : Option PingReply)
  deriving DecidableEq, Repr

/-- What the remote side answers to the `StatusRequest` read in `get_player_count`;
`online` is the signed player count of the status payload. -/
inductive CountReply where
  | statusResponse (online : Int)
  | otherPacket
  deriving DecidableEq, Repr

/-- Outcome of one run of `get_player_count`, by the same decomposition
as `PingOutcome`. -/
inductive CountOutcome where
  | tcpConnectFailed
  | craftConnectFailed
  | ioError (e : String)
  | received (p : Option CountReply)
  deriving DecidableEq, Repr

/-- Environment of one status resolution: the response of each outbound call
`get_server_status` can make, plus the instance id it is called with. -/
structure Ec2Env where
  instance_id : String
  describe_instances : Except String DescribeInstancesResponse
  describe_spot_instance_requests : Except String DescribeSpotInstanceRequestsResponse
  ping : PingOutcome
  player_count_query : CountOutcome
  deriving Repr

/-- The `EC2MinecraftServerStatus` struct (identical in `server_util.rs` and
`server_watcher.rs`). -/
structure EC2MinecraftServerStatus where
  ec2_instance_id : String
  public_ip : Option String
  ec2_state : InstanceStateName
  server_status : ServerStatus
  player_count : Nat
  deriving DecidableEq, Repr

/-- Result of one resolution: the returned snapshot, a propagated `anyhow`
error, or a Rust panic (an `.unwrap()` on a missing value). -/
inductive ResolveOutcome where
  | ok (s : EC2MinecraftServerStatus)
  | err (e : String)
  | panicked
  deriving DecidableEq, Repr

/-- The compute-lifecycle-state match appearing verbatim in both
`server_util.rs` and `server_watcher.rs` (`get_server_status`, step two):
stopped maps to Offline, stopping to ShuttingDown, pending to StartingEC2,
shutting-down to ShuttingDown, anything else to Unknown. -/
def mapEc2State : InstanceStateName → ServerStatus
  | InstanceStateName.Stopped => ServerStatus.Offline
  | InstanceStateName.Stopping => ServerStatus.ShuttingDown
  | InstanceStateName.Pending => ServerStatus.StartingEC2
  | InstanceStateName.ShuttingDown => ServerStatus.ShuttingDown
  | _ => ServerStatus.Unknown

namespace ServerUtil

/-- Embedding of `get_ec2_instance` from `src/server_util.rs`: the first instance of the
first reservation (`.first()` accessors), else the error "AWS API Error". -/
def get_ec2_instance (resp : Except String DescribeInstancesResponse) :
    Except String Instance :=
  match resp with
  | Except.error e => Except.error e
  | Except.ok r =>
    match r.reservations.head?.bind (fun res => res.instances.head?) with
    | none => Except.error "AWS API Error"
    | some i => Except.ok i

/-- Embedding of `ping_server` from `src/server_util.rs`, over the ping oracle. -/
def ping_server (outcome : PingOutcome) : Except String ServerStatus :=
  match outcome with
  | PingOutcome.tcpConnectFailed => Except.ok ServerStatus.StartingEC2
  | PingOutcome.craftConnectFailed => Except.ok ServerStatus.StartingUp
  | PingOutcome.ioError e => Except.error e
  | PingOutcome.received (some PingReply.pong) => Except.ok ServerStatus.Online
  | PingOutcome.received _ => Except.ok ServerStatus.Unknown

/-- Embedding of `get_player_count` from `src/server_util.rs`, over the count oracle.
A received status response yields `u32::try_from(online.max(0)).unwrap()`,
which never panics because of the `.max(0)`. -/
def get_player_count (outcome : CountOutcome) : Except String Nat :=
  match outcome with
  | CountOutcome.tcpConnectFailed => Except.error "Server not started."
  | CountOutcome.craftConnectFailed => Except.error "Server not started."
  | CountOutcome.ioError e => Except.error e
  | CountOutcome.received (some (CountReply.statusResponse online)) =>
      Except.ok (max online 0).toNat
  | CountOutcome.received _ =>
      Except.error "Server didn\x27t respond correctly to Status Request"

/-- Embedding of `EC2MinecraftServerStatus::get_server_status` from `src/server_util.rs`.
The second component records whether the live protocol ping was attempted. -/
def get_server_status (env : Ec2Env) : ResolveOutcome × Bool :=
  match get_ec2_instance env.describe_instances with
  | Except.error e => (ResolveOutcome.err e, false)
  | Except.ok inst =>
    match inst.state.bind (fun s => s.name) with
    | none => (ResolveOutcome.err "AWS API Error", false)
    | some instance_state =>
      let public_ip := inst.public_ip_address
      let server_status := mapEc2State instance_state
      let spotStep : Sum ResolveOutcome ServerStatus :=
        if server_status = ServerStatus.Offline then
          match env.describe_spot_instance_requests with
          | Except.error e => Sum.inl (ResolveOutcome.err e)
          | Except.ok res =>
            match res.spot_instance_requests with
            | none => Sum.inr server_status
            | some spot_instance_requests =>
              match spot_instance_requests.head? with
              | none => Sum.inl ResolveOutcome.panicked
              | some req =>
                match req.status with
                | none => Sum.inl ResolveOutcome.panicked
                | some st =>
                  match st.code with
                  | none => Sum.inl ResolveOutcome.panicked
                  | some spot_request_status =>
                    if spot_request_status = "marked-for-stop" then
                      Sum.inr ServerStatus.ShuttingDown
                    else
                      Sum.inr server_status
        else Sum.inr server_status
      match spotStep with
      | Sum.inl out => (out, false)
      | Sum.inr server_status2 =>
        if server_status2 ≠ ServerStatus.Unknown ∨ public_ip = none then
          (ResolveOutcome.ok
            { ec2_instance_id := env.instance_id
              public_ip := public_ip
              ec2_state := instance_state
              server_status := server_status2
              player_count := 0 }, false)
        else
          match public_ip with
          | none => (ResolveOutcome.panicked, false)
          | some ip =>
            let server_status3 :=
              match ping_server env.ping with
              | Except.ok s => s
              | Except.error _ => ServerStatus.Unknown
            let player_count :=
              match get_player_count env.player_count_query with
              | Except.ok n => n
              | Except.error _ => 0
            (ResolveOutcome.ok
              { ec2_instance_id := env.instance_id
                public_ip := some ip
                ec2_state := instance_state
                server_status := server_status3
                player_count := player_count }, true)

end ServerUtil

namespace ServerWatcher

/-- Embedding of `get_ec2_instance` from `src/server_watcher.rs`: the first instance of the
first reservation (`.get(0)` accessors), else the error "AWS API Error". -/
def get_ec2_instance (resp : Except String DescribeInstancesResponse) :
    Except String Instance :=
  match resp with
  | Except.error e => Except.error e
  | Except.ok r =>
    match (r.reservations.get? 0).bind (fun res => res.instances.get? 0) with
    | none => Except.error "AWS API Error"
    | some i => Except.ok i

/-- Embedding of `ping_server` from `src/server_watcher.rs`, over the ping oracle. -/
def ping_server (outcome : PingOutcome) : Except String ServerStatus :=
  match outcome with
  | PingOutcome.tcpConnectFailed => Except.ok ServerStatus.StartingEC2
  | PingOutcome.craftConnectFailed => Except.ok ServerStatus.StartingUp
  | PingOutcome.ioError e => Except.error e
  | PingOutcome.received (some PingReply.pong) => Except.ok ServerStatus.Online
  | PingOutcome.received _ => Except.ok ServerStatus.Unknown

/-- Embedding of `get_player_count` from `src/server_watcher.rs`, over the count oracle. -/
def get_player_count (outcome : CountOutcome) : Except String Nat :=
  match outcome with
  | CountOutcome.tcpConnectFailed => Except.error "Server not started."
  | CountOutcome.craftConnectFailed => Except.error "Server not started."
  | CountOutcome.ioError e => Except.error e
  | CountOutcome.received (some (CountReply.statusResponse online)) =>
      Except.ok (max online 0).toNat
  | CountOutcome.received _ =>
      Except.error "Server didn\x27t respond correctly to Status Request"

/-- Embedding of `EC2MinecraftServerStatus::get_server_status` from `src/server_watcher.rs`.
Identical to the `server_util.rs` version except that it uses `.get(0)` where
the other uses `.first()`. -/
def get_server_status (env : Ec2Env) : ResolveOutcome × Bool :=
  match get_ec2_instance env.describe_instances with
  | Except.error e => (ResolveOutcome.err e, false)
  | Except.ok inst =>
    match inst.state.bind (fun s => s.name) with
    | none => (ResolveOutcome.err "AWS API Error", false)
    | some instance_state =>
      let public_ip := inst.public_ip_address
      let server_status := mapEc2State instance_state
      let spotStep : Sum ResolveOutcome ServerStatus :=
        if server_status = ServerStatus.Offline then
          match env.describe_spot_instance_requests with
          | Except.error e => Sum.inl (ResolveOutcome.err e)
          | Except.ok res =>
            match res.spot_instance_requests with
            | none => Sum.inr server_status
            | some spot_instance_requests =>
              match spot_instance_requests.get? 0 with
              | none => Sum.inl ResolveOutcome.panicked
              | some req =>
                match req.status with
                | none => Sum.inl ResolveOutcome.panicked
                | some st =>
                  match st.code with
                  | none => Sum.inl ResolveOutcome.panicked
                  | some spot_request_status =>
                    if spot_request_status = "marked-for-stop" then
                      Sum.inr ServerStatus.ShuttingDown
                    else
                      Sum.inr server_status
        else Sum.inr server_status
      match spotStep with
      | Sum.inl out => (out, false)
      | Sum.inr server_status2 =>
        if server_status2 ≠ ServerStatus.Unknown ∨ public_ip = none then
          (ResolveOutcome.ok
            { ec2_instance_id := env.instance_id
              public_ip := public_ip
              ec2_state := instance_state
              server_status := server_status2
              player_count := 0 }, false)
        else
          match public_ip with
          | none => (ResolveOutcome.panicked, false)
          | some ip =>
            let server_status3 :=
              match ping_server env.ping with
              | Except.ok s => s
              | Except.error _ => ServerStatus.Unknown
            let player_count :=
              match get_player_count env.player_count_query with
              | Except.ok n => n
              | Except.error _ => 0
            (ResolveOutcome.ok
              { ec2_instance_id := env.instance_id
                public_ip := some ip
                ec2_state := instance_state
                server_status := server_status3
                player_count := player_count }, true)

end ServerWatcher

/-! Section: The inactivity watcher tick (`shutdown_server_if_inactive_task`, src/main.rs) -/

/-- Embedding of `MINUTES_TO_WAIT_BEFORE_SHUTTING_DOWN` from `src/main.rs`. -/
def MINUTES_TO_WAIT_BEFORE_SHUTTING_DOWN : Nat := 20

/-- The status the tick works with:
`server_status.as_ref().map(|x| x.server_status).unwrap_or(ServerStatus::Unknown)`. -/
def tickStatus (server_status : Except String EC2MinecraftServerStatus) : ServerStatus :=
  match server_status with
  | Except.ok x => x.server_status
  | Except.error _ => ServerStatus.Unknown

/-- The player count the tick works with:
`server_status.as_ref().map(|x| x.player_count).unwrap_or(0)`. -/
def tickPlayerCount (server_status : Except String EC2MinecraftServerStatus) : Nat :=
  match server_status with
  | Except.ok x => x.player_count
  | Except.error _ => 0

/-- Observable result of one watcher tick: the counter value it leaves behind
and whether a stop command was sent during the tick. -/
structure TickResult where
  inactivity_counter : Nat
  stop_issued : Bool
  deriving DecidableEq, Repr

/-- Embedding of `shutdown_server_if_inactive_task` from `src/main.rs`, as a function of the
counter it mutates, the resolution result of this tick, and the outcome the
stop command would have (the code logs that outcome but ignores it, so the
parameter is unused). `timer_max` is `MINUTES_TO_WAIT_BEFORE_SHUTTING_DOWN`. -/
def shutdown_server_if_inactive_task (timer_max : Nat) (inactivity_counter : Nat)
    (server_status : Except String EC2MinecraftServerStatus)
    (_stop_result : Except String Unit) : TickResult :=
  let status := tickStatus server_status
  let player_count := tickPlayerCount server_status
  let counter1 :=
    if status = ServerStatus.Online ∧ player_count = 0 then
      min (inactivity_counter + 1) timer_max
    else 0
  if counter1 = timer_max then
    { inactivity_counter := 0, stop_issued := true }
  else
    { inactivity_counter := counter1, stop_issued := false }

/-- What one scheduled tick observes: the resolution result and the outcome the
stop command would have if issued. -/
structure WatcherTick where
  server_status : Except String EC2MinecraftServerStatus
  stop_result : Except String Unit

/-- A run of consecutive watcher ticks starting from a given counter value;
returns the final counter and, per tick, whether a stop command was issued. -/
def runWatcher (timer_max : Nat) (inactivity_counter : Nat) :
    List WatcherTick → Nat × List Bool
  | [] => (inactivity_counter, [])
  | t :: ts =>
    let r := shutdown_server_if_inactive_task timer_max inactivity_counter
      t.server_status t.stop_result
    let rest := runWatcher timer_max r.inactivity_counter ts
    (rest.1, r.stop_issued :: rest.2)

/-! Section: Connection handlers -/

/-- Result of a login handler: the disconnect message it writes, an error it
returns before writing any message, or a panic. -/
inductive HandlerOutcome where
  | sent (message : String)
  | errored (e : String)
  | panicked
  deriving DecidableEq, Repr

namespace StatusReporter

/-- Embedding of `handle_login` from `src/status_reporter.rs`, as a function of the
allow-list, the attempted username, the status-resolution result, and the
outcome the start command would have if issued.  Returns the handler outcome
and the number of start commands issued.  The question-mark operator on
`start_ec2_instance` propagates a start failure before the disconnect packet is
written. -/
def handle_login (usernames_allowed_to_start_server : List String)
    (player_name : String) (resolved : ResolveOutcome)
    (start_result : Except String Unit) : HandlerOutcome × Nat :=
  match resolved with
  | ResolveOutcome.err e => (HandlerOutcome.errored e, 0)
  | ResolveOutcome.panicked => (HandlerOutcome.panicked, 0)
  | ResolveOutcome.ok snap =>
    match snap.server_status with
    | ServerStatus.Offline =>
      let is_allowed_to_start_server :=
        usernames_allowed_to_start_server.contains "*" ||
          usernames_allowed_to_start_server.contains player_name
      if snap.server_status = ServerStatus.Offline ∧
          is_allowed_to_start_server = true then
        match start_result with
        | Except.error e => (HandlerOutcome.errored e, 1)
        | Except.ok _ =>
          (HandlerOutcome.sent "&lLogin acknowledged: &6Starting server up...", 1)
      else
        (HandlerOutcome.sent "&lLogin denied: &4Server is offline", 0)
    | ServerStatus.StartingEC2 =>
      (HandlerOutcome.sent "&6&lServer is still spinning up &7&o(give it a few minutes)", 0)
    | ServerStatus.StartingUp =>
      (HandlerOutcome.sent "&6&lServer is still spinning up &7&o(give it a few minutes)", 0)
    | ServerStatus.Online =>
      (HandlerOutcome.sent "&2&lServer is online&r, but DNS hasn\x27t updated yet\n&7&o(wait a minute, then try again)", 0)
    | ServerStatus.ShuttingDown =>
      (HandlerOutcome.sent "&c&lServer is shutting down...", 0)
    | ServerStatus.Unknown =>
      (HandlerOutcome.sent "&b&lServer status isn\x27t known\n&r&o(usually it\x27s just starting up the EC2 instance, but it could be an error)", 0)

end StatusReporter

namespace Main

/-- The disconnect-message match of `handle_login` in `src/main.rs`
(lines 176 to 183). -/
def login_message : ServerStatus → String
  | ServerStatus.Offline => "&lLogin acknowledged: &6Starting server up..."
  | ServerStatus.StartingEC2 => "&6&lServer is still spinning up &7&o(give it a few minutes)"
  | ServerStatus.StartingUp => "&6&lServer is still spinning up &7&o(give it a few minutes)"
  | ServerStatus.Online => "&2&lServer is online&r, but DNS hasn\x27t updated yet\n&7&o(Wait a minute, then try again)"
  | ServerStatus.ShuttingDown => "&c&lServer is shutting down..."
  | ServerStatus.Unknown => "&b&lServer status isn\x27t known\n&r&o(usually it\x27s just starting up the EC2 instance, but it could be an error)"

/-- Embedding of `handle_login` from `src/main.rs`.  This variant reads a `LoginStart`
packet but discards the username and consults no allow-list: whenever the
resolved status is Offline it issues a start command unconditionally, and the
question-mark operator on `start_ec2_instance` propagates a start failure
before the disconnect packet is written. -/
def handle_login (resolved : ResolveOutcome)
    (start_result : Except String Unit) : HandlerOutcome × Nat :=
  match resolved with
  | ResolveOutcome.err e => (HandlerOutcome.errored e, 0)
  | ResolveOutcome.panicked => (HandlerOutcome.panicked, 0)
  | ResolveOutcome.ok snap =>
    if snap.server_status = ServerStatus.Offline then
      match start_result with
      | Except.error e => (HandlerOutcome.errored e, 1)
      | Except.ok _ => (HandlerOutcome.sent (login_message snap.server_status), 1)
    else
      (HandlerOutcome.sent (login_message snap.server_status), 0)

end Main

/-! Section: The status responder (`handle_status`, src/status_reporter.rs) -/

/-- Embedding of `mcproto_rs::status::StatusPlayersSpec`, restricted to the fields the code
sets. -/
structure StatusPlayersSpec where
  max : Nat
  online : Nat
  sample : List String
  deriving DecidableEq, Repr

/-- Embedding of `mcproto_rs::status::StatusVersionSpec`. -/
structure StatusVersionSpec where
  name : String
  protocol : Nat
  deriving DecidableEq, Repr

/-- Embedding of `mcproto_rs::status::StatusSpec`; the description is modelled as the raw
text handed to `Chat::from_traditional`. -/
structure StatusSpec where
  players : StatusPlayersSpec
  description : String
  favicon : Option String
  version : Option StatusVersionSpec
  deriving DecidableEq, Repr

/-- The status-response payload built in `handle_status`
(`src/status_reporter.rs` lines 58 to 70 and identically `src/main.rs`
lines 131 to 143). -/
def build_status_response (status : ServerStatus) : StatusSpec :=
  { players := { max := 0, online := 0, sample := [] }
    description := "&lStatus:&r " ++ status.get_motd
    favicon := none
    version := some { name := "phofidd-server-booter", protocol := 5 } }

/-- Result of the status handler: the status response it writes, an error it
returns before writing, or a panic propagated from resolution. -/
inductive StatusHandlerOutcome where
  | sent (response : StatusSpec)
  | errored (e : String)
  | panicked
  deriving DecidableEq, Repr

namespace StatusReporter

/-- Embedding of `handle_status` from `src/status_reporter.rs`, as a function of the
status-resolution result: resolution errors propagate (question-mark
operator), otherwise exactly one status response built by
`build_status_response` is written. -/
def handle_status (resolved : ResolveOutcome) : StatusHandlerOutcome :=
  match resolved with
  | ResolveOutcome.err e => StatusHandlerOutcome.errored e
  | ResolveOutcome.panicked => StatusHandlerOutcome.panicked
  | ResolveOutcome.ok snap =>
    StatusHandlerOutcome.sent (build_status_response snap.server_status)

end StatusReporter

/-! Section: Helper projections used to state the claims -/

/-- The lifecycle state and public address `get_server_status` extracts from
the `DescribeInstances` response, when extraction succeeds. -/
def instanceFields (env : Ec2Env) : Option (InstanceStateName × Option String) :=
  match ServerUtil.get_ec2_instance env.describe_instances with
  | Except.error _ => none
  | Except.ok inst =>
    match inst.state.bind (fun s => s.name) with
    | none => none
    | some st => some (st, inst.public_ip_address)

/-- The `DescribeSpotInstanceRequests` response shapes on which `.unwrap()` chain of the code panics: a present-but-empty request list, or a first request
with a missing status or a missing status code. -/
def bad_spot_shape (r : DescribeSpotInstanceRequestsResponse) : Bool :=
  match r.spot_instance_requests with
  | none => false
  | some reqs =>
    match reqs.head? with
    | none => true
    | some req =>
      match req.status with
      | none => true
      | some st => st.code.isNone

/-- The resolved status carried by a successful resolution outcome. -/
def resolvedStatusOf (o : ResolveOutcome) : Option ServerStatus :=
  match o with
  | ResolveOutcome.ok s => some s.server_status
  | _ => none

/-- The player count carried by a successful resolution outcome. -/
def resolvedCountOf (o : ResolveOutcome) : Option Nat :=
  match o with
  | ResolveOutcome.ok s => some s.player_count
  | _ => none

/-- The precise condition under which a resolution panics. -/
def panic_shape (env : Ec2Env) : Prop :=
  ∃ st ip r, instanceFields env = some (st, ip) ∧
    mapEc2State st = ServerStatus.Offline ∧
    env.describe_spot_instance_requests = Except.ok r ∧
    bad_spot_shape r = true

/-! Section: Concrete inputs used by witnesses and counterexamples -/

/-- A snapshot of a running, empty server, as observed by an idle tick. -/
def idle_snapshot : EC2MinecraftServerStatus :=
  { ec2_instance_id := "i-06766df1a51b9415c"
    public_ip := some "203.0.113.7"
    ec2_state := InstanceStateName.Running
    server_status := ServerStatus.Online
    player_count := 0 }

/-- An idle tick whose stop command (if issued) would succeed. -/
def idle_tick_ok : WatcherTick :=
  { server_status := Except.ok idle_snapshot, stop_result := Except.ok () }

/-- An idle tick whose stop command (if issued) would fail. -/
def idle_tick_blocked : WatcherTick :=
  { server_status := Except.ok idle_snapshot, stop_result := Except.error "stop refused" }

/-- A snapshot of a stopped instance, as a login handler would resolve it. -/
def offline_snapshot : EC2MinecraftServerStatus :=
  { ec2_instance_id := "i-06766df1a51b9415c"
    public_ip := none
    ec2_state := InstanceStateName.Stopped
    server_status := ServerStatus.Offline
    player_count := 0 }

/-- A describe-instances response for a stopped instance with no address. -/
def stopped_describe_response : DescribeInstancesResponse :=
  { reservations :=
      [{ instances :=
          [{ state := some { name := some InstanceStateName.Stopped },
             public_ip_address := none }] }] }

/-- Stopped instance; the spot-request query reports no request list at all. -/
def env_stopped_no_spot : Ec2Env :=
  { instance_id := "i-06766df1a51b9415c"
    describe_instances := Except.ok stopped_describe_response
    describe_spot_instance_requests :=
      Except.ok { spot_instance_requests := none }
    ping := PingOutcome.tcpConnectFailed
    player_count_query := CountOutcome.tcpConnectFailed }

/-- A spot-request response carrying the pending-stop marker. -/
def marked_spot_response : DescribeSpotInstanceRequestsResponse :=
  { spot_instance_requests := some [{ status := some { code := some "marked-for-stop" } }] }

/-- Stopped instance with a pending-stop marker on its spot request. -/
def env_marked_for_stop : Ec2Env :=
  { instance_id := "i-06766df1a51b9415c"
    describe_instances := Except.ok stopped_describe_response
    describe_spot_instance_requests := Except.ok marked_spot_response
    ping := PingOutcome.tcpConnectFailed
    player_count_query := CountOutcome.tcpConnectFailed }

/-- Stopped instance whose spot-request query returns a present-but-empty list. -/
def env_spot_empty : Ec2Env :=
  { instance_id := "i-06766df1a51b9415c"
    describe_instances := Except.ok stopped_describe_response
    describe_spot_instance_requests :=
      Except.ok { spot_instance_requests := some [] }
    ping := PingOutcome.tcpConnectFailed
    player_count_query := CountOutcome.tcpConnectFailed }

/-- Running instance with a public address whose server answers the ping with a
pong and reports three online players. -/
def env_running_pong : Ec2Env :=
  { instance_id := "i-06766df1a51b9415c"
    describe_instances :=
      Except.ok { reservations :=
        [{ instances :=
            [{ state := some { name := some InstanceStateName.Running },
               public_ip_address := some "198.51.100.4" }] }] }
    describe_spot_instance_requests :=
      Except.ok { spot_instance_requests := none }
    ping := PingOutcome.received (some PingReply.pong)
    player_count_query := CountOutcome.received (some (CountReply.statusResponse 3)) }

/-! Section: Shared lemmas -/

/-- Unpacks `instanceFields`: a successful extraction exhibits the instance the
describe-instances response contains. -/
theorem instanceFields_some (env : Ec2Env) (st : InstanceStateName)
    (ip : Option String) (h : instanceFields env = some (st, ip)) :
    ∃ inst, ServerUtil.get_ec2_instance env.describe_instances = Except.ok inst ∧
      inst.state.bind (fun s => s.name) = some st ∧ inst.public_ip_address = ip := by
  unfold instanceFields at h
  cases hinst : ServerUtil.get_ec2_instance env.describe_instances with
  | error e => simp [hinst] at h
  | ok inst =>
    simp only [hinst] at h
    cases hname : inst.state.bind (fun s => s.name) with
    | none => simp [hname] at h
    | some st2 =>
      simp only [hname, Option.some.injEq, Prod.mk.injEq] at h
      exact ⟨inst, rfl, by rw [hname, h.1], h.2⟩

/-- A run of idle ticks that exactly exhausts the timer, started anywhere
strictly below the maximum, stops the server on its last tick only and leaves
the counter at zero. -/
theorem runWatcher_idle_run (timer_max : Nat) :
    ∀ (ticks : List WatcherTick) (c : Nat), c < timer_max →
    c + ticks.length = timer_max →
    (∀ t ∈ ticks, tickStatus t.server_status = ServerStatus.Online ∧
      tickPlayerCount t.server_status = 0) →
    runWatcher timer_max c ticks =
      (0, List.replicate (ticks.length - 1) false ++ [true]) := by
  intro ticks
  induction ticks with
  | nil =>
    intro c hlt hlen _
    exfalso
    simp only [List.length_nil, Nat.add_zero] at hlen
    omega
  | cons t ts ih =>
    intro c hlt hlen hidle
    have ht := hidle t (List.mem_cons_self t ts)
    have hts := fun x hx => hidle x (List.mem_cons_of_mem t hx)
    have hle : c + 1 ≤ timer_max := by
      simp only [List.length_cons] at hlen
      omega
    have htick : shutdown_server_if_inactive_task timer_max c t.server_status
        t.stop_result =
        if c + 1 = timer_max then
          { inactivity_counter := 0, stop_issued := true }
        else
          { inactivity_counter := c + 1, stop_issued := false } := by
      simp only [shutdown_server_if_inactive_task, ht.1, ht.2]
      simp [Nat.min_eq_left hle]
    cases ts with
    | nil =>
      have hmax : c + 1 = timer_max := by
        simp only [List.length_cons, List.length_nil] at hlen
        omega
      simp [runWatcher, htick, hmax]
    | cons t2 ts2 =>
      have hlt2 : c + 1 < timer_max := by
        simp only [List.length_cons] at hlen
        omega
      have hne : ¬(c + 1 = timer_max) := by omega
      have ihr := ih (c + 1) hlt2
        (by simp only [List.length_cons] at hlen ⊢; omega) hts
      have hlen2 : (t2 :: ts2).length = ts2.length + 1 := rfl
      generalize hgen : (t2 :: ts2 : List WatcherTick) = l at ihr hlen2 ⊢
      simp only [runWatcher, htick, if_neg hne]
      rw [ihr]
      simp [hlen2, List.replicate_succ]

/-- C1: for every run of the inactivity watcher that starts with counter 0 and
receives exactly `inactivity_timer_max` consecutive ticks whose resolved status
is Online with player_count 0, a stop command is issued exactly once, on the
last tick of that run, and the counter equals 0 immediately after that tick,
whether the stop command succeeds or fails (the `stop_result` of each tick is
arbitrary and unused). -/
theorem c1_idle_run_stops_exactly_once_on_last_tick (timer_max : Nat)
    (ticks : List WatcherTick) (hpos : 0 < timer_max)
    (hlen : ticks.length = timer_max)
    (hidle : ∀ t ∈ ticks, tickStatus t.server_status = ServerStatus.Online ∧
      tickPlayerCount t.server_status = 0) :
    runWatcher timer_max 0 ticks =
      (0, List.replicate (timer_max - 1) false ++ [true]) := by
  have h := runWatcher_idle_run timer_max ticks 0 hpos (by omega) hidle
  rw [hlen] at h
  exact h

/-- C1 witness: twenty idle ticks (the last of which would see its stop command
fail) issue the stop exactly once, on the twentieth tick, and leave counter 0. -/
theorem c1_witness :
    runWatcher MINUTES_TO_WAIT_BEFORE_SHUTTING_DOWN 0
      (List.replicate 19 idle_tick_ok ++ [idle_tick_blocked]) =
      (0, List.replicate 19 false ++ [true]) := by
  have h := c1_idle_run_stops_exactly_once_on_last_tick
    MINUTES_TO_WAIT_BEFORE_SHUTTING_DOWN
    (List.replicate 19 idle_tick_ok ++ [idle_tick_blocked])
    (by decide)
    (by simp [MINUTES_TO_WAIT_BEFORE_SHUTTING_DOWN])
    (by
      intro t htmem
      rcases List.mem_append.mp htmem with h1 | h1
      · rw [List.eq_of_mem_replicate h1]
        exact ⟨rfl, rfl⟩
      · rw [List.mem_singleton.mp h1]
        exact ⟨rfl, rfl⟩)
  simpa [MINUTES_TO_WAIT_BEFORE_SHUTTING_DOWN] using h

/-- C4: every watcher tick whose resolved status is not Online or whose player
count is positive resets the inactivity counter to 0 regardless of its prior
value, and a tick whose status resolution failed is treated as status Unknown
with player count 0 (the tick function is total, so the tick cannot crash). -/
theorem c4_nonidle_tick_resets_counter (timer_max inactivity_counter : Nat)
    (res : Except String EC2MinecraftServerStatus)
    (stop_result : Except String Unit) (e : String)
    (h : tickStatus res ≠ ServerStatus.Online ∨ tickPlayerCount res ≠ 0) :
    (shutdown_server_if_inactive_task timer_max inactivity_counter res
      stop_result).inactivity_counter = 0 ∧
    tickStatus (Except.error e) = ServerStatus.Unknown ∧
    tickPlayerCount (Except.error e) = 0 := by
  refine ⟨?_, rfl, rfl⟩
  have hcond : ¬(tickStatus res = ServerStatus.Online ∧ tickPlayerCount res = 0) := by
    tauto
  simp only [shutdown_server_if_inactive_task]
  rw [if_neg hcond]
  split <;> rfl

/-- C4 witness: a tick with counter 7 whose resolution failed resets to 0. -/
theorem c4_witness :
    (shutdown_server_if_inactive_task MINUTES_TO_WAIT_BEFORE_SHUTTING_DOWN 7
      (Except.error "AWS unreachable") (Except.ok ())).inactivity_counter = 0 ∧
    tickStatus (Except.error "AWS unreachable") = ServerStatus.Unknown ∧
    tickPlayerCount (Except.error "AWS unreachable") = 0 :=
  c4_nonidle_tick_resets_counter MINUTES_TO_WAIT_BEFORE_SHUTTING_DOWN 7
    (Except.error "AWS unreachable") (Except.ok ()) "AWS unreachable"
    (Or.inl (by decide))

/-- C2 counterexample: the `main.rs` login handler consults no allow-list — a
login against an Offline status (here by the user "mallory", absent from the
allow-list [ "alice" ], neither of which the handler even reads) issues a start
command and is answered with the acknowledged message, not the denied one; and
in `status_reporter.rs` an allowed login whose start command fails receives no
disconnect message at all instead of the acknowledged one. -/
theorem c2_counterexample :
    (Main.handle_login (ResolveOutcome.ok offline_snapshot) (Except.ok ())).2 = 1 ∧
    (Main.handle_login (ResolveOutcome.ok offline_snapshot) (Except.ok ())).1 =
      HandlerOutcome.sent "&lLogin acknowledged: &6Starting server up..." ∧
    (StatusReporter.handle_login [ "alice" ] "alice"
      (ResolveOutcome.ok offline_snapshot) (Except.error "start failed")).1 =
      HandlerOutcome.errored "start failed" := by
  refine ⟨rfl, rfl, by decide⟩

/-- C2 amended: in the `status_reporter.rs` handler, an Offline login whose
username is neither allowed nor covered by the wildcard never issues a start
command and receives the denied message; an allowed Offline login issues
exactly one start command and, when that command succeeds, receives the
acknowledged message.  In the `main.rs` handler every Offline login issues a
start command, with no allow-list consulted. -/
theorem c2_amended_allow_list (allow : List String) (player_name : String)
    (snap : EC2MinecraftServerStatus) (start_result : Except String Unit)
    (hoff : snap.server_status = ServerStatus.Offline) :
    (allow.contains "*" = false → allow.contains player_name = false →
      StatusReporter.handle_login allow player_name (ResolveOutcome.ok snap)
          start_result =
        (HandlerOutcome.sent "&lLogin denied: &4Server is offline", 0)) ∧
    ((allow.contains "*" = true ∨ allow.contains player_name = true) →
      (StatusReporter.handle_login allow player_name (ResolveOutcome.ok snap)
        start_result).2 = 1 ∧
      (start_result = Except.ok () →
        (StatusReporter.handle_login allow player_name (ResolveOutcome.ok snap)
          start_result).1 =
          HandlerOutcome.sent "&lLogin acknowledged: &6Starting server up...")) ∧
    (Main.handle_login (ResolveOutcome.ok snap) start_result).2 = 1 := by
  obtain ⟨id, ip, est, ss, pc⟩ := snap
  dsimp only at hoff
  subst hoff
  refine ⟨?_, ?_, ?_⟩
  · intro h1 h2
    simp only [StatusReporter.handle_login]
    rw [h1, h2]
    simp
  · intro hmem
    have hallow : (allow.contains "*" || allow.contains player_name) = true := by
      rcases hmem with h | h
      · rw [h]; simp
      · rw [h]; simp
    constructor
    · cases start_result with
      | ok u =>
        simp only [StatusReporter.handle_login]
        rw [hallow]
        simp
      | error e2 =>
        simp only [StatusReporter.handle_login]
        rw [hallow]
        simp
    · intro hok
      subst hok
      simp only [StatusReporter.handle_login]
      rw [hallow]
      simp
  · cases start_result with
    | ok u => simp [Main.handle_login]
    | error e2 => simp [Main.handle_login]

/-- C2 witness: the amended theorem at a concrete disallowed login. -/
theorem c2_witness :
    StatusReporter.handle_login [ "alice" ] "mallory"
      (ResolveOutcome.ok offline_snapshot) (Except.ok ()) =
      (HandlerOutcome.sent "&lLogin denied: &4Server is offline", 0) :=
  (c2_amended_allow_list [ "alice" ] "mallory" offline_snapshot (Except.ok ())
    rfl).1 (by decide) (by decide)

/-- C7 counterexample: an allowed Offline login in `status_reporter.rs` whose
start command fails terminates with the propagated error and writes no
disconnect message — in particular the client is not told "acknowledged". -/
theorem c7_counterexample :
    (StatusReporter.handle_login [ "bob" ] "bob"
      (ResolveOutcome.ok offline_snapshot) (Except.error "start refused")).1 =
      HandlerOutcome.errored "start refused" ∧
    (StatusReporter.handle_login [ "bob" ] "bob"
      (ResolveOutcome.ok offline_snapshot) (Except.error "start refused")).1 ≠
      HandlerOutcome.sent "&lLogin acknowledged: &6Starting server up..." := by
  refine ⟨by decide, by decide⟩

/-- C7 amended: every login whose status resolution succeeds and whose start
command (if one is issued) succeeds is answered by exactly one disconnect
message, in both handler variants; when an issued start command fails, the
handler propagates the error and no disconnect message is sent. -/
theorem c7_amended_message_unless_start_fails (allow : List String)
    (player_name : String) (snap : EC2MinecraftServerStatus) (e : String) :
    (∃ m, (StatusReporter.handle_login allow player_name
      (ResolveOutcome.ok snap) (Except.ok ())).1 = HandlerOutcome.sent m) ∧
    (∃ m, (Main.handle_login (ResolveOutcome.ok snap) (Except.ok ())).1 =
      HandlerOutcome.sent m) ∧
    (snap.server_status = ServerStatus.Offline →
      (allow.contains "*" || allow.contains player_name) = true →
      (StatusReporter.handle_login allow player_name (ResolveOutcome.ok snap)
        (Except.error e)).1 = HandlerOutcome.errored e) ∧
    (snap.server_status = ServerStatus.Offline →
      (Main.handle_login (ResolveOutcome.ok snap) (Except.error e)).1 =
        HandlerOutcome.errored e) := by
  obtain ⟨id, ip, est, ss, pc⟩ := snap
  refine ⟨?_, ?_, ?_, ?_⟩
  · cases ss with
    | Offline =>
      by_cases hb : (allow.contains "*" || allow.contains player_name) = true
      · refine ⟨"&lLogin acknowledged: &6Starting server up...", ?_⟩
        simp only [StatusReporter.handle_login]
        rw [hb]
        simp
      · rw [Bool.not_eq_true] at hb
        refine ⟨"&lLogin denied: &4Server is offline", ?_⟩
        simp only [StatusReporter.handle_login]
        rw [hb]
        simp
    | StartingEC2 => exact ⟨_, rfl⟩
    | StartingUp => exact ⟨_, rfl⟩
    | Online => exact ⟨_, rfl⟩
    | ShuttingDown => exact ⟨_, rfl⟩
    | Unknown => exact ⟨_, rfl⟩
  · cases ss with
    | Offline => exact ⟨_, rfl⟩
    | StartingEC2 => exact ⟨_, rfl⟩
    | StartingUp => exact ⟨_, rfl⟩
    | Online => exact ⟨_, rfl⟩
    | ShuttingDown => exact ⟨_, rfl⟩
    | Unknown => exact ⟨_, rfl⟩
  · intro hoff hb
    dsimp only at hoff
    subst hoff
    simp only [StatusReporter.handle_login]
    rw [hb]
    simp
  · intro hoff
    dsimp only at hoff
    subst hoff
    simp [Main.handle_login]

/-- C7 witness: the amended theorem applied at a concrete failing start. -/
theorem c7_witness :
    (StatusReporter.handle_login [ "*" ] "zoe" (ResolveOutcome.ok offline_snapshot)
      (Except.error "boom")).1 = HandlerOutcome.errored "boom" :=
  (c7_amended_message_unless_start_fails [ "*" ] "zoe" offline_snapshot
    "boom").2.2.1 rfl (by decide)

/-- C9: for every status exchange, the handler writes exactly one
status-response whose player counts are online 0 and max 0 and whose
description is the motd of the resolved status prefixed with the fixed label, for
each of the six ServerStatus variants. -/
theorem c9_status_response_payload :
    (∀ snap : EC2MinecraftServerStatus,
      StatusReporter.handle_status (ResolveOutcome.ok snap) =
        StatusHandlerOutcome.sent (build_status_response snap.server_status)) ∧
    (∀ status : ServerStatus,
      (build_status_response status).players.online = 0 ∧
      (build_status_response status).players.max = 0 ∧
      (build_status_response status).description =
        "&lStatus:&r " ++ status.get_motd) ∧
    (build_status_response ServerStatus.Offline).description =
      "&lStatus:&r &4Offline &f&o(join to start server up)" ∧
    (build_status_response ServerStatus.StartingEC2).description =
      "&lStatus:&r &6Starting EC2 instance..." ∧
    (build_status_response ServerStatus.StartingUp).description =
      "&lStatus:&r &6Starting minecraft server..." ∧
    (build_status_response ServerStatus.Online).description =
      "&lStatus:&r &2Online" ∧
    (build_status_response ServerStatus.ShuttingDown).description =
      "&lStatus:&r &cShutting down..." ∧
    (build_status_response ServerStatus.Unknown).description =
      "&lStatus:&r Unknown" := by
  refine ⟨fun snap => rfl, fun status => ⟨rfl, rfl, rfl⟩, ?_, ?_, ?_, ?_, ?_, ?_⟩ <;> rfl

/-- C10: the resolver in `server_util.rs` and the resolver in
`server_watcher.rs` are behaviorally equivalent — on every identical sequence
of control-plane responses and ping/player-count outcomes they produce the same
snapshot or the same error, and attempt the ping under the same conditions. -/
theorem c10_resolver_variants_equivalent (env : Ec2Env) :
    ServerUtil.get_server_status env = ServerWatcher.get_server_status env := by
  have hget : ∀ resp, ServerWatcher.get_ec2_instance resp =
      ServerUtil.get_ec2_instance resp := by
    intro resp
    unfold ServerUtil.get_ec2_instance ServerWatcher.get_ec2_instance
    cases resp with
    | error e => rfl
    | ok r =>
      obtain ⟨rs⟩ := r
      cases rs with
      | nil => rfl
      | cons a as =>
        obtain ⟨ins⟩ := a
        cases ins with
        | nil => rfl
        | cons b bs => rfl
  obtain ⟨iid, di, dspot, pg, pcq⟩ := env
  unfold ServerUtil.get_server_status ServerWatcher.get_server_status
  rw [hget]
  cases dspot with
  | error e => rfl
  | ok res =>
    obtain ⟨sir⟩ := res
    cases sir with
    | none => rfl
    | some reqs =>
      cases reqs with
      | nil => rfl
      | cons q qs => rfl

/-- C5: whenever the compute lifecycle state maps to Offline and the control
plane reports a pending-stop marker (code "marked-for-stop") for the instance,
the resolved status is ShuttingDown, not Offline. -/
theorem c5_pending_stop_overrides_offline (env : Ec2Env)
    (st : InstanceStateName) (ip : Option String)
    (r : DescribeSpotInstanceRequestsResponse)
    (reqs : List SpotInstanceRequest) (req : SpotInstanceRequest)
    (stat : SpotInstanceRequestStatus)
    (hfields : instanceFields env = some (st, ip))
    (hoff : mapEc2State st = ServerStatus.Offline)
    (hspot : env.describe_spot_instance_requests = Except.ok r)
    (hreqs : r.spot_instance_requests = some reqs)
    (hfirst : reqs.head? = some req)
    (hstat : req.status = some stat)
    (hcode : stat.code = some "marked-for-stop") :
    (ServerUtil.get_server_status env).1 =
      ResolveOutcome.ok
        { ec2_instance_id := env.instance_id
          public_ip := ip
          ec2_state := st
          server_status := ServerStatus.ShuttingDown
          player_count := 0 } := by
  obtain ⟨inst, hinst, hname, hip⟩ := instanceFields_some env st ip hfields
  simp [ServerUtil.get_server_status, hinst, hname, hip, hoff, hspot, hreqs,
    hfirst, hstat, hcode]

/-- C5 witness: a stopped instance whose spot request is marked for stop
resolves to ShuttingDown. -/
theorem c5_witness :
    (ServerUtil.get_server_status env_marked_for_stop).1 =
      ResolveOutcome.ok
        { ec2_instance_id := "i-06766df1a51b9415c"
          public_ip := none
          ec2_state := InstanceStateName.Stopped
          server_status := ServerStatus.ShuttingDown
          player_count := 0 } :=
  c5_pending_stop_overrides_offline env_marked_for_stop
    InstanceStateName.Stopped none marked_spot_response
    [{ status := some { code := some "marked-for-stop" } }]
    { status := some { code := some "marked-for-stop" } }
    { code := some "marked-for-stop" }
    rfl rfl rfl rfl rfl rfl rfl

/-- C3: the resolver maps the compute lifecycle state by the fixed table
(stopped to Offline, stopping to ShuttingDown, pending to StartingEC2,
shutting-down to ShuttingDown, anything else to Unknown), and whenever the
mapped status is not Unknown or no public address is present, the returned
snapshot has player_count 0, no protocol ping is attempted, and the returned
status is the mapped status — except for the Offline case, where the
pending-stop override of C5 may turn it into ShuttingDown. -/
theorem c3_fixed_table_and_conclusive_early_return (env : Ec2Env)
    (st : InstanceStateName) (ip : Option String) (s : String)
    (snap : EC2MinecraftServerStatus)
    (hfields : instanceFields env = some (st, ip))
    (hconclusive : mapEc2State st ≠ ServerStatus.Unknown ∨ ip = none)
    (hsnap : (ServerUtil.get_server_status env).1 = ResolveOutcome.ok snap) :
    mapEc2State InstanceStateName.Stopped = ServerStatus.Offline ∧
    mapEc2State InstanceStateName.Stopping = ServerStatus.ShuttingDown ∧
    mapEc2State InstanceStateName.Pending = ServerStatus.StartingEC2 ∧
    mapEc2State InstanceStateName.ShuttingDown = ServerStatus.ShuttingDown ∧
    mapEc2State InstanceStateName.Running = ServerStatus.Unknown ∧
    mapEc2State InstanceStateName.Terminated = ServerStatus.Unknown ∧
    mapEc2State (InstanceStateName.Other s) = ServerStatus.Unknown ∧
    (ServerUtil.get_server_status env).2 = false ∧
    snap.player_count = 0 ∧
    (snap.server_status = mapEc2State st ∨
      (mapEc2State st = ServerStatus.Offline ∧
        snap.server_status = ServerStatus.ShuttingDown)) := by
  obtain ⟨inst, hinst, hname, hip⟩ := instanceFields_some env st ip hfields
  refine ⟨rfl, rfl, rfl, rfl, rfl, rfl, rfl, ?_⟩
  by_cases hoff : mapEc2State st = ServerStatus.Offline
  · cases hspotE : env.describe_spot_instance_requests with
    | error e2 =>
      exact absurd hsnap
        (by simp [ServerUtil.get_server_status, hinst, hname, hip, hoff, hspotE])
    | ok res =>
      cases hsir : res.spot_instance_requests with
      | none =>
        simp [ServerUtil.get_server_status, hinst, hname, hip, hoff, hspotE,
          hsir] at hsnap
        subst hsnap
        refine ⟨?_, rfl, Or.inl (by rw [hoff])⟩
        simp [ServerUtil.get_server_status, hinst, hname, hip, hoff, hspotE, hsir]
      | some reqs =>
        cases hhead : reqs.head? with
        | none =>
          exact absurd hsnap
            (by simp [ServerUtil.get_server_status, hinst, hname, hip, hoff,
              hspotE, hsir, hhead])
        | some req =>
          cases hstat : req.status with
          | none =>
            exact absurd hsnap
              (by simp [ServerUtil.get_server_status, hinst, hname, hip, hoff,
                hspotE, hsir, hhead, hstat])
          | some stc =>
            cases hcodeE : stc.code with
            | none =>
              exact absurd hsnap
                (by simp [ServerUtil.get_server_status, hinst, hname, hip, hoff,
                  hspotE, hsir, hhead, hstat, hcodeE])
            | some code =>
              by_cases hmc : code = "marked-for-stop"
              · subst hmc
                simp [ServerUtil.get_server_status, hinst, hname, hip, hoff,
                  hspotE, hsir, hhead, hstat, hcodeE] at hsnap
                subst hsnap
                refine ⟨?_, rfl, Or.inr ⟨hoff, rfl⟩⟩
                simp [ServerUtil.get_server_status, hinst, hname, hip, hoff,
                  hspotE, hsir, hhead, hstat, hcodeE]
              · simp [ServerUtil.get_server_status, hinst, hname, hip, hoff,
                  hspotE, hsir, hhead, hstat, hcodeE, hmc] at hsnap
                subst hsnap
                refine ⟨?_, rfl, Or.inl (by rw [hoff])⟩
                simp [ServerUtil.get_server_status, hinst, hname, hip, hoff,
                  hspotE, hsir, hhead, hstat, hcodeE, hmc]
  · have hnospot : ServerUtil.get_server_status env =
        (ResolveOutcome.ok
          { ec2_instance_id := env.instance_id
            public_ip := ip
            ec2_state := st
            server_status := mapEc2State st
            player_count := 0 }, false) := by
      simp only [ServerUtil.get_server_status, hinst, hname, hip]
      rw [if_neg hoff]
      dsimp only
      rw [if_pos hconclusive]
    rw [hnospot] at hsnap
    simp only [ResolveOutcome.ok.injEq] at hsnap
    subst hsnap
    rw [hnospot]
    exact ⟨rfl, rfl, Or.inl rfl⟩

/-- C3 witness: a stopped instance with no pending-stop marker list resolves
with no ping, player count 0, and the table-mapped Offline status. -/
theorem c3_witness :
    mapEc2State InstanceStateName.Stopped = ServerStatus.Offline ∧
    mapEc2State InstanceStateName.Stopping = ServerStatus.ShuttingDown ∧
    mapEc2State InstanceStateName.Pending = ServerStatus.StartingEC2 ∧
    mapEc2State InstanceStateName.ShuttingDown = ServerStatus.ShuttingDown ∧
    mapEc2State InstanceStateName.Running = ServerStatus.Unknown ∧
    mapEc2State InstanceStateName.Terminated = ServerStatus.Unknown ∧
    mapEc2State (InstanceStateName.Other "weird") = ServerStatus.Unknown ∧
    (ServerUtil.get_server_status env_stopped_no_spot).2 = false ∧
    offline_snapshot.player_count = 0 ∧
    (offline_snapshot.server_status = mapEc2State InstanceStateName.Stopped ∨
      (mapEc2State InstanceStateName.Stopped = ServerStatus.Offline ∧
        offline_snapshot.server_status = ServerStatus.ShuttingDown)) :=
  c3_fixed_table_and_conclusive_early_return env_stopped_no_spot
    InstanceStateName.Stopped none "weird" offline_snapshot rfl
    (Or.inl (by decide)) (by decide)

/-- C6: on the live-ping path (mapped status Unknown, public address present)
the ping outcome determines the status — raw TCP connect failure (connection
refused) gives StartingEC2, protocol-connection failure gives StartingUp, a
pong gives Online, and every other outcome (a propagated read/write error, an
unexpected packet, or no packet) gives Unknown — the resolution itself never
fails, and any failure of the player-count query yields player count 0 while a
successful query yields the reported count clamped at 0. -/
theorem c6_ping_outcome_table (env : Ec2Env) (st : InstanceStateName)
    (a e : String) (n : Int)
    (hfields : instanceFields env = some (st, some a))
    (hunknown : mapEc2State st = ServerStatus.Unknown) :
    (ServerUtil.get_server_status env).2 = true ∧
    (ServerUtil.get_server_status env).1 ≠ ResolveOutcome.err e ∧
    (ServerUtil.get_server_status env).1 ≠ ResolveOutcome.panicked ∧
    (env.ping = PingOutcome.tcpConnectFailed →
      resolvedStatusOf (ServerUtil.get_server_status env).1 =
        some ServerStatus.StartingEC2) ∧
    (env.ping = PingOutcome.craftConnectFailed →
      resolvedStatusOf (ServerUtil.get_server_status env).1 =
        some ServerStatus.StartingUp) ∧
    (env.ping = PingOutcome.received (some PingReply.pong) →
      resolvedStatusOf (ServerUtil.get_server_status env).1 =
        some ServerStatus.Online) ∧
    (env.ping = PingOutcome.ioError e →
      resolvedStatusOf (ServerUtil.get_server_status env).1 =
        some ServerStatus.Unknown) ∧
    (env.ping = PingOutcome.received none →
      resolvedStatusOf (ServerUtil.get_server_status env).1 =
        some ServerStatus.Unknown) ∧
    (env.ping = PingOutcome.received (some PingReply.otherPacket) →
      resolvedStatusOf (ServerUtil.get_server_status env).1 =
        some ServerStatus.Unknown) ∧
    (env.player_count_query = CountOutcome.tcpConnectFailed →
      resolvedCountOf (ServerUtil.get_server_status env).1 = some 0) ∧
    (env.player_count_query = CountOutcome.craftConnectFailed →
      resolvedCountOf (ServerUtil.get_server_status env).1 = some 0) ∧
    (env.player_count_query = CountOutcome.ioError e →
      resolvedCountOf (ServerUtil.get_server_status env).1 = some 0) ∧
    (env.player_count_query = CountOutcome.received none →
      resolvedCountOf (ServerUtil.get_server_status env).1 = some 0) ∧
    (env.player_count_query = CountOutcome.received (some CountReply.otherPacket) →
      resolvedCountOf (ServerUtil.get_server_status env).1 = some 0) ∧
    (env.player_count_query =
        CountOutcome.received (some (CountReply.statusResponse n)) →
      resolvedCountOf (ServerUtil.get_server_status env).1 =
        some (max n 0).toNat) := by
  obtain ⟨inst, hinst, hname, hip⟩ := instanceFields_some env st (some a) hfields
  have hred : ServerUtil.get_server_status env =
      (ResolveOutcome.ok
        { ec2_instance_id := env.instance_id
          public_ip := some a
          ec2_state := st
          server_status :=
            (match ServerUtil.ping_server env.ping with
              | Except.ok s2 => s2
              | Except.error _ => ServerStatus.Unknown)
          player_count :=
            (match ServerUtil.get_player_count env.player_count_query with
              | Except.ok k => k
              | Except.error _ => 0) }, true) := by
    simp only [ServerUtil.get_server_status, hinst, hname, hip, hunknown]
    rw [if_neg (by decide : ¬(ServerStatus.Unknown = ServerStatus.Offline))]
    dsimp only
    rw [if_neg (by simp :
      ¬(ServerStatus.Unknown ≠ ServerStatus.Unknown ∨
        (some a : Option String) = none))]
  refine ⟨by rw [hred], by rw [hred]; simp, by rw [hred]; simp,
    ?_, ?_, ?_, ?_, ?_, ?_, ?_, ?_, ?_, ?_, ?_, ?_⟩ <;> intro h <;> rw [hred] <;>
    simp [resolvedStatusOf, resolvedCountOf, ServerUtil.ping_server,
      ServerUtil.get_player_count, h]

/-- C6 witness: a running instance with an address whose server answers the
ping with a pong and reports three players resolves to Online with player
count 3, with the ping attempted. -/
theorem c6_witness :
    (ServerUtil.get_server_status env_running_pong).2 = true ∧
    resolvedStatusOf (ServerUtil.get_server_status env_running_pong).1 =
      some ServerStatus.Online ∧
    resolvedCountOf (ServerUtil.get_server_status env_running_pong).1 =
      some 3 := by
  have h := c6_ping_outcome_table env_running_pong InstanceStateName.Running
    "198.51.100.4" "ignored" 3 rfl rfl
  refine ⟨h.1, h.2.2.2.2.2.1 rfl, ?_⟩
  have hc := h.2.2.2.2.2.2.2.2.2.2.2.2.2.2 rfl
  simpa using hc

/-- An error from `get_ec2_instance` is either the propagated transport error
of the describe call or the fixed malformed-data error. -/
theorem get_ec2_instance_error_cases
    (resp : Except String DescribeInstancesResponse) (x : String)
    (hx : ServerUtil.get_ec2_instance resp = Except.error x) :
    resp = Except.error x ∨ x = "AWS API Error" := by
  cases resp with
  | error e3 =>
    left
    simp only [ServerUtil.get_ec2_instance] at hx
    have he : e3 = x := by simpa using hx
    rw [he]
  | ok r =>
    right
    simp only [ServerUtil.get_ec2_instance] at hx
    cases h4 : r.reservations.head?.bind (fun res => res.instances.head?) with
    | none =>
      simp only [h4] at hx
      have : "AWS API Error" = x := by simpa using hx
      exact this.symm
    | some i => simp [h4] at hx

/-- Unpacking `panic_shape` against a known field extraction. -/
theorem panic_shape_elim (env : Ec2Env) (st : InstanceStateName)
    (ip : Option String) (hfields : instanceFields env = some (st, ip))
    (hp : panic_shape env) :
    mapEc2State st = ServerStatus.Offline ∧
    ∃ r, env.describe_spot_instance_requests = Except.ok r ∧
      bad_spot_shape r = true := by
  obtain ⟨st2, ip2, r, hf2, hoff2, hsp2, hbad⟩ := hp
  rw [hfields] at hf2
  simp only [Option.some.injEq, Prod.mk.injEq] at hf2
  exact ⟨by rw [hf2.1]; exact hoff2, r, hsp2, hbad⟩

/-- C8 counterexample: resolving a stopped instance whose pending-stop query
returns a present-but-empty spot-request list panics (the `.unwrap()` chain on
`.first()`), so resolve is not panic-free on such responses. -/
theorem c8_counterexample :
    (ServerUtil.get_server_status env_spot_empty).1 = ResolveOutcome.panicked :=
  rfl

/-- C8 amended: resolve is total over the modelled outcomes (snapshot, error
or panic); it panics exactly when the lifecycle state maps to Offline and the
pending-stop query returns a present-but-empty spot-request list or a first
request with a missing status or status code; and it returns an error only for
a failed describe call, malformed describe data (no instance, no state field),
or a failed pending-stop query. -/
theorem c8_amended_resolve_totality (env : Ec2Env) (e : String) :
    ((ServerUtil.get_server_status env).1 = ResolveOutcome.panicked ↔
      panic_shape env) ∧
    ((ServerUtil.get_server_status env).1 = ResolveOutcome.err e →
      env.describe_instances = Except.error e ∨ e = "AWS API Error" ∨
      env.describe_spot_instance_requests = Except.error e) := by
  cases hinst : ServerUtil.get_ec2_instance env.describe_instances with
  | error e2 =>
    refine ⟨⟨fun h => ?_, fun hp => ?_⟩, fun h => ?_⟩
    · simp [ServerUtil.get_server_status, hinst] at h
    · obtain ⟨st2, ip2, r, hf2, hoff2, hsp2, hbad⟩ := hp
      unfold instanceFields at hf2
      simp [hinst] at hf2
    · have h1 : ResolveOutcome.err e2 = ResolveOutcome.err e := by
        rw [← h]; simp [ServerUtil.get_server_status, hinst]
      have he : e2 = e := by simpa using h1
      subst he
      rcases get_ec2_instance_error_cases env.describe_instances e2 hinst with h3 | h3
      · exact Or.inl h3
      · exact Or.inr (Or.inl h3)
  | ok inst =>
    cases hname : inst.state.bind (fun s => s.name) with
    | none =>
      refine ⟨⟨fun h => ?_, fun hp => ?_⟩, fun h => ?_⟩
      · simp [ServerUtil.get_server_status, hinst, hname] at h
      · obtain ⟨st2, ip2, r, hf2, hoff2, hsp2, hbad⟩ := hp
        unfold instanceFields at hf2
        simp [hinst, hname] at hf2
      · have h1 : ResolveOutcome.err "AWS API Error" = ResolveOutcome.err e := by
          rw [← h]; simp [ServerUtil.get_server_status, hinst, hname]
        have he : "AWS API Error" = e := by simpa using h1
        exact Or.inr (Or.inl he.symm)
    | some st =>
      have hfields : instanceFields env = some (st, inst.public_ip_address) := by
        simp [instanceFields, hinst, hname]
      by_cases hoff : mapEc2State st = ServerStatus.Offline
      · cases hspotE : env.describe_spot_instance_requests with
        | error e2 =>
          refine ⟨⟨fun h => ?_, fun hp => ?_⟩, fun h => ?_⟩
          · simp [ServerUtil.get_server_status, hinst, hname, hoff, hspotE] at h
          · obtain ⟨hoffx, r, hsp2, hbad⟩ :=
              panic_shape_elim env st inst.public_ip_address hfields hp
            rw [hspotE] at hsp2
            exact absurd hsp2 (by simp)
          · have h1 : ResolveOutcome.err e2 = ResolveOutcome.err e := by
              rw [← h]
              simp [ServerUtil.get_server_status, hinst, hname, hoff, hspotE]
            have he : e2 = e := by simpa using h1
            subst he
            exact Or.inr (Or.inr rfl)
        | ok res =>
          cases hsir : res.spot_instance_requests with
          | none =>
            refine ⟨⟨fun h => ?_, fun hp => ?_⟩, fun h => ?_⟩
            · simp [ServerUtil.get_server_status, hinst, hname, hoff, hspotE,
                hsir] at h
            · obtain ⟨hoffx, r, hsp2, hbad⟩ :=
                panic_shape_elim env st inst.public_ip_address hfields hp
              rw [hspotE] at hsp2
              have hr : res = r := by simpa using hsp2
              subst hr
              simp [bad_spot_shape, hsir] at hbad
            · simp [ServerUtil.get_server_status, hinst, hname, hoff, hspotE,
                hsir] at h
          | some reqs =>
            cases hhead : reqs.head? with
            | none =>
              refine ⟨⟨fun _ => ?_, fun _ => ?_⟩, fun h => ?_⟩
              · exact ⟨st, inst.public_ip_address, res, hfields, hoff, hspotE,
                  by simp [bad_spot_shape, hsir, hhead]⟩
              · simp [ServerUtil.get_server_status, hinst, hname, hoff, hspotE,
                  hsir, hhead]
              · simp [ServerUtil.get_server_status, hinst, hname, hoff, hspotE,
                  hsir, hhead] at h
            | some req =>
              cases hstat : req.status with
              | none =>
                refine ⟨⟨fun _ => ?_, fun _ => ?_⟩, fun h => ?_⟩
                · exact ⟨st, inst.public_ip_address, res, hfields, hoff, hspotE,
                    by simp [bad_spot_shape, hsir, hhead, hstat]⟩
                · simp [ServerUtil.get_server_status, hinst, hname, hoff,
                    hspotE, hsir, hhead, hstat]
                · simp [ServerUtil.get_server_status, hinst, hname, hoff,
                    hspotE, hsir, hhead, hstat] at h
              | some stc =>
                cases hcodeE : stc.code with
                | none =>
                  refine ⟨⟨fun _ => ?_, fun _ => ?_⟩, fun h => ?_⟩
                  · exact ⟨st, inst.public_ip_address, res, hfields, hoff,
                      hspotE, by simp [bad_spot_shape, hsir, hhead, hstat, hcodeE]⟩
                  · simp [ServerUtil.get_server_status, hinst, hname, hoff,
                      hspotE, hsir, hhead, hstat, hcodeE]
                  · simp [ServerUtil.get_server_status, hinst, hname, hoff,
                      hspotE, hsir, hhead, hstat, hcodeE] at h
                | some code =>
                  refine ⟨⟨fun h => ?_, fun hp => ?_⟩, fun h => ?_⟩
                  · by_cases hmc : code = "marked-for-stop" <;>
                      simp [ServerUtil.get_server_status, hinst, hname, hoff,
                        hspotE, hsir, hhead, hstat, hcodeE, hmc] at h
                  · obtain ⟨hoffx, r, hsp2, hbad⟩ :=
                      panic_shape_elim env st inst.public_ip_address hfields hp
                    rw [hspotE] at hsp2
                    have hr : res = r := by simpa using hsp2
                    subst hr
                    simp [bad_spot_shape, hsir, hhead, hstat, hcodeE] at hbad
                  · by_cases hmc : code = "marked-for-stop" <;>
                      simp [ServerUtil.get_server_status, hinst, hname, hoff,
                        hspotE, hsir, hhead, hstat, hcodeE, hmc] at h
      · refine ⟨⟨fun h => ?_, fun hp => ?_⟩, fun h => ?_⟩
        · cases hipE : inst.public_ip_address with
          | none =>
            simp [ServerUtil.get_server_status, hinst, hname, hoff, hipE] at h
          | some a =>
            by_cases hunk : mapEc2State st = ServerStatus.Unknown
            · simp [ServerUtil.get_server_status, hinst, hname, hipE, hunk] at h
            · simp [ServerUtil.get_server_status, hinst, hname, hoff, hipE,
                hunk] at h
        · exact absurd
            (panic_shape_elim env st inst.public_ip_address hfields hp).1 hoff
        · cases hipE : inst.public_ip_address with
          | none =>
            simp [ServerUtil.get_server_status, hinst, hname, hoff, hipE] at h
          | some a =>
            by_cases hunk : mapEc2State st = ServerStatus.Unknown
            · simp [ServerUtil.get_server_status, hinst, hname, hipE, hunk] at h
            · simp [ServerUtil.get_server_status, hinst, hname, hoff, hipE,
                hunk] at h

/-- C8 witness: the amended theorem applied at a concrete panicking response —
the panic characterization is satisfiable. -/
theorem c8_witness : panic_shape env_spot_empty :=
  (c8_amended_resolve_totality env_spot_empty "unused").1.mp rfl

end MinecraftWatcher
